import Mathlib

set_option linter.unusedVariables false

namespace Prophecies

/-! Shallow embedding of the session controller in src/unnamed/part_000 (the
current TypeScript component; src/www/index.js is the superseded legacy
variant).  Strings are embedded as lists of characters.  The external wasm
engine (WasmBot) is not part of the staged sources, so it is modelled from the
spec's Engine Adapter contract (section 6); every definition that does so says
it in its doc comment.  All other definitions are direct translations of the
TypeScript source. -/

def HUMAN_PLAYER : Nat := 0

def BOT_PLAYER : Nat := 1

/-- Membership of a character in the regex character class [0-9]. -/
def isAsciiDigit (c : Char) : Bool := ('0' ≤ c) && (c ≤ '9')

/-- Translation of `legalActionRegex.test`, where
`legalActionRegex = new RegExp("^X|[0-9]+$")` (src/unnamed/part_000 line 18).
JavaScript regex alternation has the lowest precedence, so the pattern groups
as `(^X)|([0-9]+$)`, and `test` is an unanchored search: the test succeeds
exactly when the string starts with the character X, or some nonempty run of
digits ends at the end of the string, i.e. the last character is a digit. -/
def legalActionRegexTest (s : List Char) : Bool :=
  (match s with
   | 'X' :: _ => true
   | _ => false) ||
  (match s.getLast? with
   | some c => isAsciiDigit c
   | none => false)

/-- Value of a list of decimal digit characters read left to right. -/
def digitsVal (l : List Char) : Nat :=
  l.foldl (fun a c => 10 * a + (c.toNat - 48)) 0

/-- The common JavaScript whitespace characters skipped by parseInt. -/
def isJsSpace (c : Char) : Bool :=
  (c = ' ') || (c = '\t') || (c = '\n') || (c = '\r')

/-- Model of the JavaScript builtin `parseInt(s, 10)`: skip leading
whitespace, read an optional sign, then the longest prefix of decimal digits;
the result is NaN (modelled as `none`) when that prefix is empty. -/
def parseIntDec (s : List Char) : Option Int :=
  let core : List Char → Option Int := fun l =>
    let d := l.takeWhile isAsciiDigit
    if d.isEmpty then none else some (Int.ofNat (digitsVal d))
  let t := s.dropWhile isJsSpace
  match t with
  | '-' :: rest => (core rest).map (fun n => -n)
  | '+' :: rest => core rest
  | _ => core t

/-- The spec's own notion of a syntactically legal committed token
(section 4.1): the empty string, the literal blank marker X, or a digit
sequence.  This definition follows the spec's words, for comparison with the
source's `legalActionRegexTest` above. -/
def specLegalToken (s : List Char) : Bool :=
  s.isEmpty || (s = ['X']) || (!s.isEmpty && s.all isAsciiDigit)

/-- Modelled from the spec: the position and value of a recommended move, as
the wasm binding exposes it under `edge.action`. -/
structure BotAction where
  row : Nat
  col : Nat
  guess : Int
  deriving DecidableEq, Repr

/-- Modelled from the spec: the engine's best-action recommendation
(section 6 `bestAction`): a position and value together with the accumulated
outcome score and visit count of the search statistics.  The controller reads
`edge.action`, `edge.score` and `edge.visits`. -/
structure Edge where
  action : BotAction
  score : ℚ
  visits : Nat
  deriving DecidableEq, Repr

/-- Modelled from the spec: the state of the external engine (WasmBot), whose
code is not among the staged sources.  A cell is `none` while unfilled and
`some (guess, player)` once filled (section 3 CellState); `turn` is the active
participant while the session is not finished; `bestEdge` is the engine's
current recommendation (`none` when no search work has happened yet or none is
available); `stats` abstracts the engine-internal search statistics advanced
by `playout`. -/
structure Bot where
  nrows : Nat
  ncols : Nat
  cells : List (List (Option (Int × Nat)))
  turn : Nat
  finished : Bool
  scores : List Nat
  bestEdge : Option Edge
  stats : Nat
  deriving DecidableEq, Repr

/-- Modelled from the spec: `cellAt` (section 6); the wasm `get_cell` returns
an object whose guess and player fields are both defined (filled) or both
undefined (unfilled). -/
def get_cell (bot : Bot) (r c : Nat) : Option (Int × Nat) :=
  (bot.cells.getD r []).getD c none

/-- Modelled from the spec: `activeParticipant` (section 6) is None exactly
when the session is finished, and otherwise the participant whose turn it is. -/
def get_active_player (bot : Bot) : Option Nat :=
  if bot.finished then none else some bot.turn

/-- Modelled from the spec: `isFinished` (section 6). -/
def is_finished (bot : Bot) : Bool := bot.finished

/-- Modelled from the spec: `bestAction` (section 6). -/
def get_best_action (bot : Bot) : Option Edge := bot.bestEdge

/-- Modelled from the spec: `scores` (section 6). -/
def get_scores (bot : Bot) : List Nat := bot.scores

/-- The engine raises an IllegalMove error when a placement is rejected. -/
inductive EngineError where
  | illegalMove
  deriving DecidableEq, Repr

/-- Modelled from the spec: the engine's `place` (section 6) fails with
IllegalMove if the coordinates are out of bounds, the cell is already filled,
or the value is not a valid placement value (a NaN guess, modelled as `none`,
is never valid); engine-internal game rules beyond these are out of the spec's
scope and are not modelled.  On success the cell is filled for the active
participant, the turn passes to the other participant, and the finished flag
is recomputed; scoring is owned by the engine and left unchanged here. -/
def place (bot : Bot) (row col : Nat) (guess : Option Int) :
    Except EngineError Bot :=
  if row < bot.nrows && col < bot.ncols then
    match get_cell bot row col with
    | some _ => .error .illegalMove
    | none =>
      match guess with
      | none => .error .illegalMove
      | some v =>
        let cells2 :=
          bot.cells.set row ((bot.cells.getD row []).set col (some (v, bot.turn)))
        .ok { bot with
              cells := cells2
              turn := 1 - bot.turn
              finished := cells2.all (fun rw => rw.all (fun cl => cl.isSome)) }
  else .error .illegalMove

/-- Modelled from the spec: `advanceSearch` (one wasm `playout`) performs one
unit of search work; it changes only the engine-internal search statistics,
never the game-legal state. -/
def playout (bot : Bot) : Bot := { bot with stats := bot.stats + 1 }

/-- `n` successive playout calls, as issued by the source's time-boxed
`while (performance.now() - t0 < budget)` loops; the number of iterations is
determined by the environment's clock, so it appears as a parameter. -/
def playoutN (bot : Bot) : Nat → Bot
  | 0 => bot
  | n + 1 => playoutN (playout bot) n

/-- One cell of the controller's mirrored grid (Grid.getGameState maps the
wasm cell's undefined fields to null). -/
structure MirrorCell where
  guess : Option Int
  player : Option Nat
  deriving DecidableEq, Repr

/-- The Session Snapshot: the render-facing GridState of the source
(activePlayer, grid, scores, winProb). -/
structure Snapshot where
  activePlayer : Option Nat
  grid : List (List MirrorCell)
  scores : List Nat
  winProb : Option ℚ
  deriving DecidableEq, Repr

/-- Translation of Grid.getWinProb (src/unnamed/part_000 lines 243-255): null
unless the engine's active player is the human; null when the engine has no
best-action recommendation; otherwise `(1 + edge.score / Number(edge.visits)) / 2`. -/
def getWinProb (bot : Bot) : Option ℚ :=
  if get_active_player bot ≠ some HUMAN_PLAYER then none
  else
    match get_best_action bot with
    | none => none
    | some edge => some ((1 + edge.score / (edge.visits : ℚ)) / 2)

/-- Translation of Grid.getGameState (lines 127-153) for the mounted state
(the source's pre-mount `this.bot == null` branch is not needed by any claim):
rebuild the full snapshot by re-reading every engine accessor. -/
def getGameState (bot : Bot) : Snapshot :=
  { activePlayer := get_active_player bot
    winProb := getWinProb bot
    scores := get_scores bot
    grid :=
      (List.range bot.nrows).map fun r =>
        (List.range bot.ncols).map fun c =>
          match get_cell bot r c with
          | some gp => { guess := some gp.1, player := some gp.2 }
          | none => { guess := none, player := none } }

/-- The controller-side state owned by the Grid component: the engine handle,
the current Session Snapshot, and the shouldPonder flag.  `placeCalls` is
instrumentation counting how many times `bot.place` has been invoked, so that
claims of the form "place is (not) called" are directly statable. -/
structure SessionState where
  bot : Bot
  snapshot : Snapshot
  shouldPonder : Bool
  placeCalls : Nat
  deriving DecidableEq, Repr

/-- A move attempt as built by Grid.onCellInputBlur; `guess = none` models the
NaN produced when `parseInt` fails on the committed token. -/
structure Action where
  row : Nat
  col : Nat
  guess : Option Int
  deriving DecidableEq, Repr

/-- An IllegalMove exception escaping a controller method, together with the
controller state at the moment it escapes. -/
structure Thrown where
  err : EngineError
  state : SessionState
  deriving DecidableEq, Repr

/-- Translation of Grid.takeAction (lines 257-264): a null action returns; an
exception raised by `bot.place` propagates to the caller (there is no
try/catch here), and the snapshot rebuild runs only after a successful
placement. -/
def takeAction (st : SessionState) (action : Option Action) :
    Except Thrown SessionState :=
  match action with
  | none => .ok st
  | some a =>
    let st1 := { st with placeCalls := st.placeCalls + 1 }
    match place st.bot a.row a.col a.guess with
    | .error e => .error { err := e, state := st1 }
    | .ok bot2 => .ok { st1 with bot := bot2, snapshot := getGameState bot2 }

/-- The cell the source reads as `this.state.grid[row][col]`. -/
def cellAtSnap (snap : Snapshot) (row col : Nat) : MirrorCell :=
  (snap.grid.getD row []).getD col { guess := none, player := none }

/-- Translation of Grid.onCellInputBlur (lines 202-213): nothing is forwarded
when the mirrored cell already has a player, when the committed text is empty,
or when the text fails `legalActionRegex`; otherwise the token is converted (X
to 0, anything else through `parseInt(_, 10)`) and a move attempt is built. -/
def onCellInputBlur (snap : Snapshot) (row col : Nat) (cellValue : List Char) :
    Option Action :=
  if (cellAtSnap snap row col).player ≠ none then none
  else if cellValue.isEmpty then none
  else if !(legalActionRegexTest cellValue) then none
  else
    some { row := row, col := col,
           guess := if cellValue = ['X'] then some 0 else parseIntDec cellValue }

/-- Grid.onCellInputBlur followed by Grid.takeAction, exactly as the source
chains them; an IllegalMove raised by `place` escapes this whole path. -/
def gridOnBlur (st : SessionState) (row col : Nat) (v : List Char) :
    Except Thrown SessionState :=
  takeAction st (onCellInputBlur st.snapshot row col v)

/-- Result of the full blur path: the controller state afterwards, the cell's
transient text content afterwards, and whether the catch block in Cell.onBlur
logged an error. -/
structure BlurResult where
  sess : SessionState
  content : List Char
  loggedError : Bool
  deriving DecidableEq, Repr

/-- Translation of Cell.onBlur (lines 74-83): the handler is invoked only when
the typed content passes `legalActionRegex`; any exception thrown by the Grid
handler is caught right here, in the Cell component, and logged; the local
content is cleared on every path.  The committed value the Grid handler reads
from the input element equals the cell's typed content (the input is
controlled). -/
def cellOnBlur (content : List Char) (st : SessionState) (row col : Nat) :
    BlurResult :=
  if legalActionRegexTest content then
    match gridOnBlur st row col content with
    | .ok s2 => { sess := s2, content := [], loggedError := false }
    | .error e => { sess := e.state, content := [], loggedError := true }
  else { sess := st, content := [], loggedError := false }

/-- Translation of Grid.onCellInputChange (lines 215-221): the handler only
tests the regex and logs the failed-regex message on failure; it blocks
nothing and touches no state.  The returned flag records whether the message
was logged. -/
def onCellInputChange (v : List Char) : Bool :=
  !(legalActionRegexTest v)

/-- Result of the per-keystroke change path. -/
structure ChangeResult where
  content : List Char
  sess : SessionState
  logged : Bool
  deriving DecidableEq, Repr

/-- Translation of Cell.onChange (lines 85-88): store the typed text in the
cell's local state unconditionally, then invoke Grid.onCellInputChange. -/
def cellOnChange (oldContent : List Char) (st : SessionState) (row col : Nat)
    (v : List Char) : ChangeResult :=
  { content := v, sess := st, logged := onCellInputChange v }

/-- Result of one invocation of Grid.ponder. -/
structure PonderResult where
  sess : SessionState
  rescheduled : Bool
  nplayouts : Nat
  deriving DecidableEq, Repr

/-- Translation of Grid.ponder (lines 223-241): return at once if
shouldPonder is false; if the engine is finished, set shouldPonder false and
return without rescheduling; otherwise run the time-boxed playout loop (at
least one iteration; `extra` counts the additional, clock-determined ones),
setState only the winProb field of the snapshot, and schedule the next cycle. -/
def ponder (st : SessionState) (extra : Nat) : PonderResult :=
  if !st.shouldPonder then { sess := st, rescheduled := false, nplayouts := 0 }
  else if is_finished st.bot then
    { sess := { st with shouldPonder := false }, rescheduled := false,
      nplayouts := 0 }
  else
    let bot2 := playoutN st.bot (extra + 1)
    { sess := { st with
                bot := bot2
                snapshot := { st.snapshot with winProb := getWinProb bot2 } }
      rescheduled := true
      nplayouts := extra + 1 }

/-- Translation of Grid.takeBotAction (lines 266-277): run the minimum-budget
playout loop (at least one iteration), query the best action; if there is
none, set shouldPonder false and return without placing; otherwise forward the
recommended action to takeAction (whose exceptions propagate, uncaught, out of
this timer callback). -/
def takeBotAction (st : SessionState) (extra : Nat) :
    Except Thrown SessionState :=
  let bot2 := playoutN st.bot (extra + 1)
  let st1 := { st with bot := bot2 }
  match get_best_action bot2 with
  | none => .ok { st1 with shouldPonder := false }
  | some edge =>
      takeAction st1 (some { row := edge.action.row, col := edge.action.col,
                             guess := some edge.action.guess })

/-- The scheduler-level state: the controller state, whether a ponder timer is
pending (only `ponder` itself ever schedules one after mount, via
setTimeout), and how many playout calls the pondering task has issued in
total (the source's own `nplayouts` log counter, accumulated). -/
structure Machine where
  sess : SessionState
  ponderScheduled : Bool
  ponderPlayouts : Nat
  deriving DecidableEq, Repr

/-- The discrete events of the single-threaded cooperative scheduler: a
pending ponder timer fires, a deferred takeBotAction callback fires, a human
blur commit arrives, or the component unmounts (componentWillUnmount, lines
122-125, sets shouldPonder false and frees the handle).  Each event's body
runs atomically, which is exactly the runtime's cooperative model. -/
inductive Event where
  | ponderFire (extra : Nat)
  | botActFire (extra : Nat)
  | humanBlur (row col : Nat) (content : List Char)
  | unmount
  deriving DecidableEq, Repr

/-- One scheduler step.  A ponderFire with no pending timer is a no-op (the
timer is not pending, so the body never runs); an exception escaping
takeBotAction leaves the controller state as it was at the throw. -/
def step (m : Machine) : Event → Machine
  | .ponderFire extra =>
    if m.ponderScheduled then
      let r := ponder m.sess extra
      { sess := r.sess, ponderScheduled := r.rescheduled,
        ponderPlayouts := m.ponderPlayouts + r.nplayouts }
    else m
  | .botActFire extra =>
    match takeBotAction m.sess extra with
    | .ok s2 => { m with sess := s2 }
    | .error e => { m with sess := e.state }
  | .humanBlur row col content =>
    { m with sess := (cellOnBlur content m.sess row col).sess }
  | .unmount =>
    { m with sess := { m.sess with shouldPonder := false } }

/-- A finite scheduler trace. -/
def runEvents (m : Machine) (evs : List Event) : Machine :=
  evs.foldl step m

/-! Concrete states used by witnesses and counterexamples. -/

/-- An all-unfilled grid of the given dimensions. -/
def emptyCells (nr nc : Nat) : List (List (Option (Int × Nat))) :=
  List.replicate nr (List.replicate nc none)

/-- A fresh 4x4 engine with the human to move, as created at mount. -/
def b0 : Bot :=
  { nrows := 4, ncols := 4, cells := emptyCells 4 4, turn := HUMAN_PLAYER,
    finished := false, scores := [0, 0], bestEdge := none, stats := 0 }

/-- The engine after the human filled (0,0) with value 3: the cell is filled
and the turn has passed to the agent. -/
def b1 : Bot :=
  { nrows := 4, ncols := 4
    cells := [[some (3, 0), none, none, none],
              [none, none, none, none],
              [none, none, none, none],
              [none, none, none, none]]
    turn := BOT_PLAYER, finished := false, scores := [0, 0],
    bestEdge := none, stats := 0 }

/-- A fresh controller state over `b0` with an up-to-date mirror. -/
def S0 : SessionState :=
  { bot := b0, snapshot := getGameState b0, shouldPonder := true,
    placeCalls := 0 }

/-- A controller state over `b1` with an up-to-date mirror: cell (0,0) is
filled in the Session Snapshot. -/
def S1 : SessionState :=
  { bot := b1, snapshot := getGameState b1, shouldPonder := true,
    placeCalls := 0 }

/-- A controller state whose mirror is stale: the engine has (0,0) filled
while the snapshot still shows it unfilled, so a forwarded placement at (0,0)
makes the engine raise IllegalMove. -/
def S2 : SessionState :=
  { bot := b1, snapshot := getGameState b0, shouldPonder := true,
    placeCalls := 0 }

/-- A recommendation with score 0 over 1 visit. -/
def e5 : Edge :=
  { action := { row := 1, col := 1, guess := 2 }, score := 0, visits := 1 }

/-- An engine holding the best-action recommendation `e5`. -/
def b5 : Bot := { b0 with bestEdge := some e5 }

/-- A fresh engine with the agent to move. -/
def bBotTurn : Bot := { b0 with turn := BOT_PLAYER }

/-- A scheduler state on the agent's turn with a pending ponder timer. -/
def Mc4 : Machine :=
  { sess := { bot := bBotTurn, snapshot := getGameState bBotTurn, shouldPonder := true, placeCalls := 0 },
    ponderScheduled := true, ponderPlayouts := 0 }

/-- A finished engine. -/
def bFin : Bot := { b0 with finished := true }

/-- A scheduler state over a finished engine with a pending ponder timer. -/
def Mhalt : Machine :=
  { sess := { bot := bFin, snapshot := getGameState bFin, shouldPonder := true, placeCalls := 0 },
    ponderScheduled := true, ponderPlayouts := 7 }

/-- A concrete trace of later scheduler events, used to witness that a halted
pondering task stays halted across them. -/
def evsW : List Event :=
  [.ponderFire 3, .humanBlur 0 0 ['7'], .botActFire 2, .unmount, .ponderFire 1]

/-! Theorems. -/

/-- If the typed text fails the syntax regex, Grid.onCellInputBlur forwards
nothing. -/
theorem onCellInputBlur_regex (snap : Snapshot) (row col : Nat) (v : List Char)
    (h : legalActionRegexTest v = false) :
    onCellInputBlur snap row col v = none := by
  unfold onCellInputBlur
  split
  next => rfl
  next =>
    split
    next => rfl
    next => simp [h]

/-- Claim C1 (refuting the claim as stated, supporting a code bug): the
committed token X1 is not a legal token in the spec's sense (it is neither the
blank marker nor a digit sequence), yet the source's mis-grouped regex accepts
it, and the blur path on an unfilled cell calls the engine's place operation
on it (with the NaN that `parseInt` produces).  The spec says such mixed
tokens are rejected by the syntax validator before any engine call. -/
theorem c1_illegal_token_reaches_place :
    specLegalToken ['X', '1'] = false ∧
    legalActionRegexTest ['X', '1'] = true ∧
    (cellOnBlur ['X', '1'] S0 0 0).sess.placeCalls = 1 :=
  ⟨by decide, by decide, by decide⟩

/-- Claim C2: a human blur commit on a cell that is already filled in the
current Session Snapshot is a no-op: the whole blur path returns the
controller state unchanged (in particular place is never called, the snapshot
and its active participant are untouched) and only the transient cell text is
cleared. -/
theorem c2_filled_cell_blur_noop (st : SessionState) (row col : Nat)
    (content : List Char)
    (h : (cellAtSnap st.snapshot row col).player ≠ none) :
    cellOnBlur content st row col =
      { sess := st, content := [], loggedError := false } := by
  by_cases hreg : legalActionRegexTest content
  · simp [cellOnBlur, hreg, gridOnBlur, onCellInputBlur, h, takeAction]
  · simp [cellOnBlur, hreg]

/-- Claim C2 witness: committing the token 5 on the filled cell (0,0) of the
concrete state S1 changes nothing. -/
theorem c2_witness :
    cellOnBlur ['5'] S1 0 0 = { sess := S1, content := [], loggedError := false } :=
  c2_filled_cell_blur_noop S1 0 0 ['5'] (by decide)

/-- Claim C3 counterexample: with a stale mirror (engine cell (0,0) filled,
snapshot still unfilled) the forwarded placement makes place raise
IllegalMove, and the error escapes the controller's takeAction and
onCellInputBlur — `gridOnBlur` returns the error instead of catching it at
the call site; it is then caught one layer up, in the presentation-layer
Cell.onBlur handler. -/
theorem c3_illegalmove_escapes_controller :
    gridOnBlur S2 0 0 ['3'] =
      .error { err := .illegalMove, state := { S2 with placeCalls := 1 } } ∧
    cellOnBlur ['3'] S2 0 0 =
      { sess := { S2 with placeCalls := 1 }, content := [], loggedError := true } :=
  ⟨rfl, rfl⟩

/-- Claim C3 (amended): whenever an IllegalMove escapes the controller's blur
path, the Cell.onBlur catch block stops it (so it never propagates further as
a crash), logs it and clears the transient text, and the session state at the
catch differs from the state before the attempt only in the instrumentation
counter: the engine state and the Session Snapshot are unchanged and the
snapshot rebuild did not occur. -/
theorem c3_thrown_caught_in_presentation (content : List Char)
    (st : SessionState) (row col : Nat) (t : Thrown)
    (h : gridOnBlur st row col content = .error t) :
    cellOnBlur content st row col =
      { sess := t.state, content := [], loggedError := true } ∧
    t.state.bot = st.bot ∧ t.state.snapshot = st.snapshot := by
  cases ha : onCellInputBlur st.snapshot row col content with
  | none =>
    exfalso
    have hok : gridOnBlur st row col content = .ok st := by
      unfold gridOnBlur
      rw [ha]
      rfl
    rw [hok] at h
    exact Except.noConfusion h
  | some a =>
    have hreg : legalActionRegexTest content = true := by
      cases hr : legalActionRegexTest content
      · rw [onCellInputBlur_regex st.snapshot row col content hr] at ha
        exact Option.noConfusion ha
      · rfl
    cases hp : place st.bot a.row a.col a.guess with
    | ok b2 =>
      exfalso
      have hok : gridOnBlur st row col content = .ok { st with placeCalls := st.placeCalls + 1, bot := b2, snapshot := getGameState b2 } := by
        unfold gridOnBlur takeAction
        rw [ha]
        simp [hp]
      rw [hok] at h
      exact Except.noConfusion h
    | error e =>
      have herr : gridOnBlur st row col content = .error { err := e, state := { st with placeCalls := st.placeCalls + 1 } } := by
        unfold gridOnBlur takeAction
        rw [ha]
        simp [hp]
      rw [herr] at h
      injection h with h1
      subst h1
      refine ⟨?_, rfl, rfl⟩
      simp [cellOnBlur, hreg, herr]

/-- Claim C3 witness: the amended statement at the concrete stale state S2
with token 3. -/
theorem c3_witness :
    cellOnBlur ['3'] S2 0 0 =
      { sess := ({ err := .illegalMove, state := { S2 with placeCalls := 1 } } : Thrown).state, content := [], loggedError := true } ∧
    ({ err := .illegalMove, state := { S2 with placeCalls := 1 } } : Thrown).state.bot = S2.bot ∧
    ({ err := .illegalMove, state := { S2 with placeCalls := 1 } } : Thrown).state.snapshot = S2.snapshot :=
  c3_thrown_caught_in_presentation ['3'] S2 0 0 _ rfl

/-- Claim C4 counterexample: in the concrete scheduler state Mc4 the active
participant is the Agent and the session is not finished, yet the pondering
cycle that fires still reschedules its successor — refuting the claim that a
pondering cycle reschedules only while the active participant is Human. -/
theorem c4_reschedules_on_agent_turn :
    get_active_player Mc4.sess.bot = some BOT_PLAYER ∧
    (step Mc4 (.ponderFire 0)).ponderScheduled = true :=
  ⟨rfl, rfl⟩

/-- Claim C4 (amended): a pondering cycle reschedules its successor exactly
when shouldPonder is true and the engine is not finished at the start of the
cycle — the active participant is never consulted; exclusion between a
pondering body and an Agent-Acting invocation comes only from the
single-threaded scheduler running each task atomically. -/
theorem c4_reschedule_iff_not_halted (st : SessionState) (extra : Nat) :
    (ponder st extra).rescheduled = (st.shouldPonder && !(is_finished st.bot)) := by
  unfold ponder
  cases hs : st.shouldPonder <;> cases hf : is_finished st.bot <;> simp [hs, hf]

/-- Claim C5: whenever the win-probability estimate is present, the engine's
active participant is the Human, the session is not finished, and the engine's
bestAction query yielded a recommendation — equivalently, the estimate is
absent whenever the active participant is not Human, the session is finished,
or no recommendation is available. -/
theorem c5_winProb_only_human_unfinished (bot : Bot) (p : ℚ)
    (h : getWinProb bot = some p) :
    get_active_player bot = some HUMAN_PLAYER ∧ is_finished bot = false ∧
    get_best_action bot ≠ none := by
  unfold getWinProb at h
  by_cases ha : get_active_player bot = some HUMAN_PLAYER
  · rw [if_neg (fun hne => hne ha)] at h
    refine ⟨ha, ?_, ?_⟩
    · unfold is_finished
      unfold get_active_player at ha
      cases hf : bot.finished
      · rfl
      · rw [hf] at ha
        simp at ha
    · intro hb
      rw [hb] at h
      exact Option.noConfusion h
  · rw [if_pos ha] at h
    exact Option.noConfusion h

/-- Claim C5 witness: the engine b5 (human to move, unfinished, with a
recommendation) has a present estimate, and the theorem's conclusions hold
there. -/
theorem c5_witness :
    get_active_player b5 = some HUMAN_PLAYER ∧ is_finished b5 = false ∧
    get_best_action b5 ≠ none :=
  c5_winProb_only_human_unfinished b5 ((1 + (0 : ℚ) / ((1 : Nat) : ℚ)) / 2) rfl

/-- Claim C6: whenever the win-probability estimate is present it equals
`(1 + score / visits) / 2` computed from the current bestAction
recommendation, and under the engine convention the spec states (a positive
visit count and an accumulated score normalized to [-visits, +visits]) the
value lies in [0, 1]. -/
theorem c6_winProb_formula_in_unit_interval (bot : Bot) (e : Edge) (p : ℚ)
    (hbe : get_best_action bot = some e)
    (h : getWinProb bot = some p)
    (hv : 0 < e.visits)
    (hlo : -((e.visits : ℚ)) ≤ e.score)
    (hhi : e.score ≤ (e.visits : ℚ)) :
    p = (1 + e.score / (e.visits : ℚ)) / 2 ∧ 0 ≤ p ∧ p ≤ 1 := by
  unfold getWinProb at h
  by_cases ha : get_active_player bot ≠ some HUMAN_PLAYER
  · rw [if_pos ha] at h
    exact absurd h (by simp)
  · rw [if_neg ha, hbe] at h
    have hp : p = (1 + e.score / (e.visits : ℚ)) / 2 := ((Option.some.injEq _ _).mp h).symm
    have hv2 : (0 : ℚ) < (e.visits : ℚ) := by exact_mod_cast hv
    have h1 : e.score / (e.visits : ℚ) ≤ 1 := (div_le_one hv2).mpr hhi
    have h2 : (-1 : ℚ) ≤ e.score / (e.visits : ℚ) := by
      rw [le_div_iff₀ hv2]
      linarith
    subst hp
    refine ⟨rfl, by linarith, by linarith⟩

/-- Claim C6 witness: at the engine b5 whose recommendation e5 has score 0
over 1 visit, the estimate is the formula's value and lies in [0, 1]. -/
theorem c6_witness :
    (1 + e5.score / (e5.visits : ℚ)) / 2 = (1 + e5.score / (e5.visits : ℚ)) / 2 ∧
    0 ≤ (1 + e5.score / (e5.visits : ℚ)) / 2 ∧ (1 + e5.score / (e5.visits : ℚ)) / 2 ≤ 1 :=
  c6_winProb_formula_in_unit_interval b5 e5 _ rfl rfl (by decide) (by norm_num [e5]) (by norm_num [e5])

/-- Any scheduler step taken from a state with no pending ponder timer leaves
the timer absent and the pondering playout count unchanged: nothing but a
pondering cycle ever schedules a pondering cycle. -/
theorem step_preserves_ponder_halted (m : Machine) (ev : Event)
    (h : m.ponderScheduled = false) :
    (step m ev).ponderScheduled = false ∧
    (step m ev).ponderPlayouts = m.ponderPlayouts := by
  cases ev with
  | ponderFire extra => simp [step, h]
  | botActFire extra =>
    cases htb : takeBotAction m.sess extra <;> simp [step, htb, h]
  | humanBlur row col content => exact ⟨h, rfl⟩
  | unmount => exact ⟨h, rfl⟩

/-- Along any trace from a state with no pending ponder timer, the timer stays
absent and the pondering task issues no playout calls. -/
theorem runEvents_preserves_ponder_halted (evs : List Event) :
    ∀ m : Machine, m.ponderScheduled = false →
    (runEvents m evs).ponderScheduled = false ∧
    (runEvents m evs).ponderPlayouts = m.ponderPlayouts := by
  induction evs with
  | nil => exact fun m h => ⟨h, rfl⟩
  | cons ev rest ih =>
    intro m h
    have hs := step_preserves_ponder_halted m ev h
    have hr := ih (step m ev) hs.1
    exact ⟨hr.1, hr.2.trans hs.2⟩

/-- A pondering cycle that observes shouldPonder false or the engine finished
performs no playouts, does not reschedule, and leaves shouldPonder false. -/
theorem ponder_halts (st : SessionState) (extra : Nat)
    (h : st.shouldPonder = false ∨ is_finished st.bot = true) :
    (ponder st extra).rescheduled = false ∧ (ponder st extra).nplayouts = 0 ∧
    (ponder st extra).sess.shouldPonder = false := by
  cases h with
  | inl h1 => simp [ponder, h1]
  | inr h2 =>
    cases hs : st.shouldPonder
    · simp [ponder, hs]
    · simp [ponder, hs, h2]

/-- Claim C7: once a pondering cycle halts — because it observed shouldPonder
false or the engine finished — it performs no playouts and schedules no
successor, and along every later trace of scheduler events no pondering cycle
is ever scheduled again and the pondering task issues no further playout
calls: the halt is one-way. -/
theorem c7_ponder_halt_is_permanent (m : Machine) (extra : Nat) (evs : List Event)
    (hsch : m.ponderScheduled = true)
    (hhalt : m.sess.shouldPonder = false ∨ is_finished m.sess.bot = true) :
    (step m (.ponderFire extra)).ponderScheduled = false ∧
    (step m (.ponderFire extra)).ponderPlayouts = m.ponderPlayouts ∧
    (runEvents (step m (.ponderFire extra)) evs).ponderScheduled = false ∧
    (runEvents (step m (.ponderFire extra)) evs).ponderPlayouts = m.ponderPlayouts := by
  have hp := ponder_halts m.sess extra hhalt
  have h1 : step m (.ponderFire extra) =
      { sess := (ponder m.sess extra).sess, ponderScheduled := (ponder m.sess extra).rescheduled, ponderPlayouts := m.ponderPlayouts + (ponder m.sess extra).nplayouts } := by
    simp [step, hsch]
  have hsched1 : (step m (.ponderFire extra)).ponderScheduled = false := by
    rw [h1]
    exact hp.1
  have hplay1 : (step m (.ponderFire extra)).ponderPlayouts = m.ponderPlayouts := by
    rw [h1]
    simp [hp.2.1]
  have hr := runEvents_preserves_ponder_halted evs (step m (.ponderFire extra)) hsched1
  exact ⟨hsched1, hplay1, hr.1, hr.2.trans hplay1⟩

/-- Claim C7 witness: the pondering cycle firing on the finished session Mhalt
halts, and across the concrete later trace evsW (another timer attempt, a
human blur, an agent action, unmount, another timer attempt) pondering never
runs again and its playout count stays at 7. -/
theorem c7_witness :
    (step Mhalt (.ponderFire 0)).ponderScheduled = false ∧
    (step Mhalt (.ponderFire 0)).ponderPlayouts = Mhalt.ponderPlayouts ∧
    (runEvents (step Mhalt (.ponderFire 0)) evsW).ponderScheduled = false ∧
    (runEvents (step Mhalt (.ponderFire 0)) evsW).ponderPlayouts = Mhalt.ponderPlayouts :=
  c7_ponder_halt_is_permanent Mhalt 0 evsW rfl (Or.inr rfl)

/-- Claim C8: if after the minimum search budget the bestAction query yields
no recommendation, takeBotAction returns with shouldPonder set false and the
rest of the controller state exactly as it was (no place call, snapshot
untouched), with no hypothesis at all on the engine's finished flag. -/
theorem c8_no_recommendation_halts (st : SessionState) (extra : Nat)
    (h : get_best_action (playoutN st.bot (extra + 1)) = none) :
    takeBotAction st extra =
      .ok { st with bot := playoutN st.bot (extra + 1), shouldPonder := false } := by
  simp [takeBotAction, h]

/-- Claim C8 witness: on the concrete state S0, whose engine holds no
recommendation, the agent's turn halts background search without placing. -/
theorem c8_witness :
    takeBotAction S0 0 = .ok { S0 with bot := playoutN S0.bot (0 + 1), shouldPonder := false } :=
  c8_no_recommendation_halts S0 0 rfl

/-- Claim C9 (refuting the claim as stated, supporting a code bug): the
committed token a9 is not syntactically legal in the spec's sense, yet the
mis-grouped regex accepts it (its last character is a digit) and the blur path
on the unfilled cell (1,1) forwards a move attempt, calling place with the NaN
that `parseInt` produces — the attempt is not silently dropped as the claim
requires. -/
theorem c9_nonlegal_token_forwarded :
    specLegalToken ['a', '9'] = false ∧
    legalActionRegexTest ['a', '9'] = true ∧
    (cellOnBlur ['a', '9'] S0 1 1).sess.placeCalls = 1 :=
  ⟨by decide, by decide, by decide⟩

/-- Claim C10: the per-keystroke change path never changes game, engine or
controller state: the cell stores exactly the typed text in its transient
local state for every input (valid or not), and the grid-level change handler
does nothing but log the failed-regex message exactly when the text fails the
validation regex. -/
theorem c10_change_never_touches_session (oldContent : List Char)
    (st : SessionState) (row col : Nat) (v : List Char) :
    (cellOnChange oldContent st row col v).sess = st ∧
    (cellOnChange oldContent st row col v).content = v ∧
    (cellOnChange oldContent st row col v).logged = (!legalActionRegexTest v) :=
  ⟨rfl, rfl, rfl⟩

end Prophecies
